import Mathlib

/-!
Verification of the launcher script `bin/runviewer.pyw` of the noysim
package.  The whole script reads, in source order:

    (line 6)  import noysim.viewer
    app = noysim.viewer.wx.PySimpleApp()
    app.frame = noysim.viewer.ViewerFrame()
    app.frame.Show()
    app.MainLoop()

The script is embedded as a list of statements together with a
deterministic operational semantics over an explicit GUI state.  Failures
raised by the external libraries (for example a missing wxPython
installation making the `import` fail) are modelled by an oracle that
tells, for each statement, whether it raises and which error; the runner
contains no handler, mirroring the absence of any try/except in the
script, so a raise aborts the remainder of the run.  The semantics also
receives the process input (command line, environment, user input), which
no statement of the script consults.
-/

namespace Noysim

/-- An error raised by a statement (an exception escaping the script). -/
structure Err where
  msg : String
deriving DecidableEq, Repr

/-- The statements of `runviewer.pyw`, one constructor per source line. -/
inductive Stmt where
  /-- the `noysim.viewer` import (line 6) -/
  | importMod (name : String)
  /-- `app = noysim.viewer.wx.PySimpleApp()` (line 8) -/
  | constructApp
  /-- `app.frame = noysim.viewer.ViewerFrame()` (line 9) -/
  | attachFrame
  /-- `app.frame.Show()` (line 10) -/
  | showFrame
  /-- `app.MainLoop()` (line 11) -/
  | mainLoop
deriving DecidableEq, Repr

/-- Whether a statement is a module import (rather than a GUI operation). -/
def Stmt.isImport : Stmt → Bool
  | .importMod _ => true
  | _ => false

/-- The launcher script: its statements in source order. -/
def launcherStmts : List Stmt :=
  [.importMod "noysim.viewer", .constructApp, .attachFrame, .showFrame, .mainLoop]

/-- The GUI operations of the launcher: its statements other than imports. -/
def launcherOps : List Stmt :=
  launcherStmts.filter (fun st => !st.isImport)

/-- The application object (`wx.PySimpleApp`): the `frame` attribute the
script binds (the id of the attached window, if any), plus the internals
of the object, which the script never touches. -/
structure App where
  frame : Option Nat
  internals : Nat
deriving DecidableEq, Repr

/-- The state of the interpreter while the script runs: whether
`noysim.viewer` has been imported, the allocator for fresh window object
ids, the `app` variable, how many application objects and how many viewer
windows have been constructed so far, the ids of the windows shown so
far, and whether the event loop has been run. -/
structure GuiState where
  imported : Bool
  nextId : Nat
  app : Option App
  appsCreated : Nat
  windowsCreated : Nat
  shownWindows : List Nat
  loopRun : Bool
deriving DecidableEq, Repr

/-- The state before the script starts: nothing imported, no objects. -/
def initState : GuiState :=
  { imported := false, nextId := 0, app := none, appsCreated := 0,
    windowsCreated := 0, shownWindows := [], loopRun := false }

/-- The process input available to the script: command-line arguments,
environment variables, and user input.  The script never reads any of
it, which the semantics below makes visible: `stepI` receives the input
and no clause consults it. -/
structure Input where
  argv : List String
  env : List (String × String)
  userInput : List String
deriving DecidableEq, Repr

/-- A run with empty command line, environment and user input. -/
def emptyInput : Input := { argv := [], env := [], userInput := [] }

/-- The oracle that raises on no statement (all libraries installed). -/
def noFail : Stmt → Option Err := fun _ => none

/-- One statement of the script, as an effect on the GUI state.  `fail`
tells whether the external libraries make the statement raise; absent
such a failure, the statement has the effect read off the source line:
the import marks the module loaded, `PySimpleApp()` constructs the
application object, `app.frame = ViewerFrame()` constructs a fresh
window and binds the `frame` attribute of `app` to it, `app.frame.Show()`
shows the window bound to `frame`, and `app.MainLoop()` runs the event
loop.  Name and attribute references that would not resolve in Python
(using `app` before it is bound, or `app.frame` before it is bound)
raise. -/
def stepI (inp : Input) (fail : Stmt → Option Err) (s : GuiState) (st : Stmt) :
    Except Err GuiState :=
  match fail st with
  | some e => .error e
  | none =>
    match st with
    | .importMod _ => .ok { s with imported := true }
    | .constructApp =>
      if s.imported then
        .ok { s with app := some { frame := none, internals := 0 },
                     appsCreated := s.appsCreated + 1 }
      else .error { msg := "NameError: noysim" }
    | .attachFrame =>
      if s.imported then
        match s.app with
        | none => .error { msg := "NameError: app" }
        | some a =>
          .ok { s with app := some { frame := some s.nextId, internals := a.internals },
                       windowsCreated := s.windowsCreated + 1,
                       nextId := s.nextId + 1 }
      else .error { msg := "NameError: noysim" }
    | .showFrame =>
      match s.app with
      | none => .error { msg := "NameError: app" }
      | some a =>
        match a.frame with
        | none => .error { msg := "AttributeError: frame" }
        | some w => .ok { s with shownWindows := s.shownWindows ++ [w] }
    | .mainLoop =>
      match s.app with
      | none => .error { msg := "NameError: app" }
      | some _ => .ok { s with loopRun := true }

/-- The outcome of running a prefix of the script: the state when the run
stopped, the statements that completed, and the escaped error if one was
raised. -/
structure RunResult where
  state : GuiState
  trace : List Stmt
  err : Option Err
deriving DecidableEq, Repr

/-- Run a list of statements in order from a state.  There is no handler:
the first statement that raises ends the run and its error escapes. -/
def runStmts (inp : Input) (fail : Stmt → Option Err) :
    GuiState → List Stmt → RunResult
  | s, [] => { state := s, trace := [], err := none }
  | s, st :: rest =>
    match stepI inp fail s st with
    | .error e => { state := s, trace := [], err := some e }
    | .ok s' =>
      let r := runStmts inp fail s' rest
      { state := r.state, trace := st :: r.trace, err := r.err }

/-- Run the whole launcher script from the initial state. -/
def runLauncher (inp : Input) (fail : Stmt → Option Err) : RunResult :=
  runStmts inp fail initState launcherStmts

/-- The window id bound to the `frame` attribute of the application
object, when both exist. -/
def attachedFrame (s : GuiState) : Option Nat :=
  s.app.bind (fun a => a.frame)

/-- C1: the launcher script performs exactly four operations and no
others, in this order: construct the application object, attach a newly
constructed viewer window to it, show that window, and enter the UI
event loop.  Its GUI operations (all statements but the module import)
are exactly those four, in that order, and a run with all libraries
present executes every statement of the script in source order. -/
theorem launcher_four_ops :
    launcherOps = [Stmt.constructApp, Stmt.attachFrame, Stmt.showFrame, Stmt.mainLoop] ∧
    (runLauncher emptyInput noFail).trace = launcherStmts := by
  decide

/-- C2: the event loop is entered last: `MainLoop` is the final statement
of the script, no statement follows it (the suffix of the script after
the first `MainLoop` is empty), and in the final state of a successful
run the event loop has been run. -/
theorem mainloop_is_last :
    launcherStmts.getLast? = some Stmt.mainLoop ∧
    (launcherStmts.dropWhile (fun st => st != Stmt.mainLoop)).tail = [] ∧
    (runLauncher emptyInput noFail).state.loopRun = true := by
  decide

/-- C4: the window that is shown is the very window bound to the `frame`
attribute of the application object: after a successful run there is a
window id `w` such that the frame attached to the application is `w` and
the list of shown windows is exactly `[w]`. -/
theorem shown_window_is_attached_frame :
    ∃ w, attachedFrame (runLauncher emptyInput noFail).state = some w ∧
      (runLauncher emptyInput noFail).state.shownWindows = [w] := by
  refine ⟨0, ?_, ?_⟩ <;> decide

/-- A statement on which the failure oracle fires raises, whatever the
state and the input. -/
theorem stepI_fail (inp : Input) (fail : Stmt → Option Err) (s : GuiState)
    (st : Stmt) (e : Err) (hf : fail st = some e) :
    stepI inp fail s st = Except.error e := by
  unfold stepI
  rw [hf]

/-- Running a concatenation whose first part completes without error
continues with the second part from the reached state. -/
theorem runStmts_append_ok (inp : Input) (fail : Stmt → Option Err)
    (l₁ l₂ : List Stmt) (s s₁ : GuiState) (t₁ : List Stmt)
    (h : runStmts inp fail s l₁ = { state := s₁, trace := t₁, err := none }) :
    runStmts inp fail s (l₁ ++ l₂) =
      { state := (runStmts inp fail s₁ l₂).state,
        trace := t₁ ++ (runStmts inp fail s₁ l₂).trace,
        err := (runStmts inp fail s₁ l₂).err } := by
  induction l₁ generalizing s t₁ with
  | nil =>
    simp only [runStmts] at h
    cases h
    simp [runStmts]
  | cons st rest ih =>
    simp only [runStmts] at h ⊢
    cases hst : stepI inp fail s st with
    | error e => rw [hst] at h; simp at h
    | ok s' =>
      rw [hst] at h
      simp only [] at h
      cases hr : runStmts inp fail s' rest with
      | mk rs rt re =>
        rw [hr] at h
        cases h
        have := ih s' rt hr
        simp [this]

/-- C3: throughout the launcher run there is at most one application
object and at most one viewer window — after any prefix of the script at
most one of each has been constructed — and once the whole script has
run, exactly one of each has been constructed. -/
theorem one_app_one_window (n : Nat) :
    ((runStmts emptyInput noFail initState (launcherStmts.take n)).state.appsCreated ≤ 1 ∧
     (runStmts emptyInput noFail initState (launcherStmts.take n)).state.windowsCreated ≤ 1) ∧
    (5 ≤ n →
     (runStmts emptyInput noFail initState (launcherStmts.take n)).state.appsCreated = 1 ∧
     (runStmts emptyInput noFail initState (launcherStmts.take n)).state.windowsCreated = 1) := by
  rcases Nat.lt_or_ge n 5 with h5 | h5
  · interval_cases n <;> exact ⟨by decide, by omega⟩
  · have ht : launcherStmts.take n = launcherStmts :=
      List.take_of_length_le (by simp [launcherStmts]; omega)
    rw [ht]
    exact ⟨by decide, fun _ => by decide⟩

/-- C3 witness: at the end of the script (prefix length 5), exactly one
application object and exactly one window have been constructed. -/
theorem one_app_one_window_witness :
    (runStmts emptyInput noFail initState (launcherStmts.take 5)).state.appsCreated = 1 ∧
    (runStmts emptyInput noFail initState (launcherStmts.take 5)).state.windowsCreated = 1 :=
  (one_app_one_window 5).2 (by decide)

/-- C5: the launcher has no failure-handling policy.  If the run reaches
a statement on which the external libraries raise — the script splits as
`pre ++ st :: post`, `pre` completes without error, and `st` raises `e` —
then `e` escapes the whole script unhandled. -/
theorem error_propagates (inp : Input) (fail : Stmt → Option Err)
    (pre post : List Stmt) (st : Stmt) (e : Err) (s₁ : GuiState) (t₁ : List Stmt)
    (hsplit : launcherStmts = pre ++ st :: post)
    (hpre : runStmts inp fail initState pre = { state := s₁, trace := t₁, err := none })
    (hf : fail st = some e) :
    (runLauncher inp fail).err = some e := by
  unfold runLauncher
  rw [hsplit, runStmts_append_ok inp fail pre (st :: post) initState s₁ t₁ hpre]
  simp only [runStmts, stepI_fail inp fail s₁ st e hf]

/-- The oracle of a host with wxPython missing: the import raises. -/
def importFails : Stmt → Option Err := fun st =>
  match st with
  | .importMod _ => some { msg := "ImportError: no module named wx" }
  | _ => none

/-- C5 witness: with the import raising (wxPython missing), the error
escapes the whole launcher unhandled. -/
theorem error_propagates_witness :
    (runLauncher emptyInput importFails).err =
      some { msg := "ImportError: no module named wx" } :=
  error_propagates emptyInput importFails []
    [Stmt.constructApp, Stmt.attachFrame, Stmt.showFrame, Stmt.mainLoop]
    (Stmt.importMod "noysim.viewer") { msg := "ImportError: no module named wx" }
    initState [] rfl rfl rfl

/-- C6: if the import of `noysim.viewer` fails, no GUI state is created:
the run stops in a state with no application object constructed, no
window constructed, no window shown, `app` unbound, and the import error
escapes. -/
theorem import_failure_creates_nothing (inp : Input) (fail : Stmt → Option Err)
    (e : Err) (hf : fail (Stmt.importMod "noysim.viewer") = some e) :
    (runLauncher inp fail).state.appsCreated = 0 ∧
    (runLauncher inp fail).state.windowsCreated = 0 ∧
    (runLauncher inp fail).state.shownWindows = [] ∧
    (runLauncher inp fail).state.app = none ∧
    (runLauncher inp fail).err = some e := by
  have h : runLauncher inp fail = { state := initState, trace := [], err := some e } := by
    unfold runLauncher launcherStmts
    simp only [runStmts, stepI_fail inp fail initState (Stmt.importMod "noysim.viewer") e hf]
  rw [h]
  exact ⟨rfl, rfl, rfl, rfl, rfl⟩

/-- C6 witness: with wxPython missing, the launcher constructs no
application object and no window, and shows nothing. -/
theorem import_failure_creates_nothing_witness :
    (runLauncher emptyInput importFails).state.appsCreated = 0 ∧
    (runLauncher emptyInput importFails).state.windowsCreated = 0 ∧
    (runLauncher emptyInput importFails).state.shownWindows = [] ∧
    (runLauncher emptyInput importFails).state.app = none ∧
    (runLauncher emptyInput importFails).err =
      some { msg := "ImportError: no module named wx" } :=
  import_failure_creates_nothing emptyInput importFails
    { msg := "ImportError: no module named wx" } rfl

/-- C7: the attach statement only binds the `frame` attribute of the
application object to the newly constructed window.  From any state where
the module is imported and `app` is bound, the statement succeeds and the
reached state differs from the old one only in: the `frame` attribute of
`app` now holds the fresh window id (the internals of the application
object are untouched), one more window exists, and the id allocator has
advanced — every other component of the state is unchanged. -/
theorem attach_only_binds_frame (inp : Input) (fail : Stmt → Option Err)
    (s : GuiState) (a : App) (hfail : fail Stmt.attachFrame = none)
    (himp : s.imported = true) (happ : s.app = some a) :
    stepI inp fail s Stmt.attachFrame =
      Except.ok { s with app := some { frame := some s.nextId, internals := a.internals },
                         windowsCreated := s.windowsCreated + 1,
                         nextId := s.nextId + 1 } := by
  unfold stepI
  rw [hfail, himp, happ]
  simp

/-- The state reached after the import and the application construction:
the state from which the attach statement runs. -/
def afterConstruct : GuiState :=
  { imported := true, nextId := 0, app := some { frame := none, internals := 0 },
    appsCreated := 1, windowsCreated := 0, shownWindows := [], loopRun := false }

/-- C7 witness: from the state the launcher reaches just before the
attach statement, attaching binds `frame` to window id 0 and changes
nothing else. -/
theorem attach_only_binds_frame_witness :
    stepI emptyInput noFail afterConstruct Stmt.attachFrame =
      Except.ok { imported := true, nextId := 1,
                  app := some { frame := some 0, internals := 0 },
                  appsCreated := 1, windowsCreated := 1,
                  shownWindows := [], loopRun := false } :=
  attach_only_binds_frame emptyInput noFail afterConstruct
    { frame := none, internals := 0 } rfl rfl rfl

/-- One statement has the same effect whatever the process input: no
clause of the semantics consults the input, because no line of the
script reads the command line, the environment or user input. -/
theorem stepI_input_irrelevant (i₁ i₂ : Input) (fail : Stmt → Option Err)
    (s : GuiState) (st : Stmt) :
    stepI i₁ fail s st = stepI i₂ fail s st := rfl

/-- Runs from the same state are identical whatever the process input. -/
theorem runStmts_input_irrelevant (i₁ i₂ : Input) (fail : Stmt → Option Err)
    (s : GuiState) (l : List Stmt) :
    runStmts i₁ fail s l = runStmts i₂ fail s l := by
  induction l generalizing s with
  | nil => rfl
  | cons st rest ih =>
    simp only [runStmts, stepI_input_irrelevant i₁ i₂ fail s st]
    cases stepI i₂ fail s st with
    | error e => rfl
    | ok s' => simp [ih]

/-- C8: the launcher reads no input.  Any two runs of the launcher, on
any two process inputs (command-line arguments, environment, user
input) but the same host-library condition, reach the same state,
execute the identical sequence of statements, and end the same way. -/
theorem launcher_reads_no_input (i₁ i₂ : Input) (fail : Stmt → Option Err) :
    runLauncher i₁ fail = runLauncher i₂ fail :=
  runStmts_input_irrelevant i₁ i₂ fail initState launcherStmts

end Noysim
